import Mathlib

/-!
Verification of the media-database data-access layer (`mdb_handler.py`).

The store is a single SQLite database with three tables (`media`, `genres`,
`media_types`).  We embed each table as a list of row structures, the whole
store as `DBState`, and each handler operation as a function on `DBState`
(or, for the read operations, a function producing the list of fetched
chunks, mirroring the `fetchmany`-based generators of the source).

Machine-level aspects that the claims depend on are modelled explicitly:
`LIKE`-pattern matching with `%` and `_` wildcards and ASCII case folding,
CPython's `fetchmany` behaviour (a non-positive size never triggers its
stop condition, so it returns all remaining rows), the SQL single-quote
escaping that `filter_entries` is exposed to because it interpolates its
`value` argument into the statement text, and storage faults injected at
individual SQL statements for the operations whose `try/except` behaviour
is under scrutiny.
-/

namespace MediaDB

/-- A SQLite storage value as used by the handler: the columns of the three
tables are either INTEGER or VARCHAR, and every value the handler binds is
an `int` or a `str`. -/
inductive SQLVal : Type
  | int (i : Int)
  | str (s : String)
deriving DecidableEq

/-- Lexicographic comparison of character lists by codepoint, matching the
BINARY collation SQLite applies to TEXT values in `ORDER BY`. -/
def charListLe : List Char → List Char → Bool
  | [], _ => true
  | _ :: _, [] => false
  | a :: as, b :: bs =>
    if a.toNat < b.toNat then true
    else if b.toNat < a.toNat then false
    else charListLe as bs

/-- SQLite comparison order for `ORDER BY`: integers sort before text,
integers numerically, text by BINARY collation. -/
def SQLVal.le : SQLVal → SQLVal → Bool
  | .int a, .int b => decide (a ≤ b)
  | .int _, .str _ => true
  | .str _, .int _ => false
  | .str a, .str b => charListLe a.data b.data

/-- A row of the `media` table (`id` is the INTEGER PRIMARY KEY rowid). -/
structure MediaRow : Type where
  id : Nat
  title : String
  description : String
  age_rating : String
  genre : String
  season : Int
  disc_count : Int
  media_type : String
  play_time : Int
  notes : String
deriving DecidableEq

/-- A row of the `genres` table. -/
structure GenreRow : Type where
  id : Nat
  genre : String
  description : String
  examples : String
deriving DecidableEq

/-- A row of the `media_types` table. -/
structure MediaTypeRow : Type where
  id : Nat
  media_type : String
deriving DecidableEq

/-- The whole store: the three tables, each a list of rows in rowid order. -/
structure DBState : Type where
  media : List MediaRow
  genres : List GenreRow
  media_types : List MediaTypeRow
deriving DecidableEq

/-- The columns of the `media` table, used wherever the source interpolates
a column name of that table into a statement. -/
inductive MediaColumn : Type
  | id | title | description | age_rating | genre
  | season | disc_count | media_type | play_time | notes
deriving DecidableEq

/-- Read the value of a `media` column from a row. -/
def MediaColumn.proj : MediaColumn → MediaRow → SQLVal
  | .id, r => .int r.id
  | .title, r => .str r.title
  | .description, r => .str r.description
  | .age_rating, r => .str r.age_rating
  | .genre, r => .str r.genre
  | .season, r => .int r.season
  | .disc_count, r => .int r.disc_count
  | .media_type, r => .str r.media_type
  | .play_time, r => .int r.play_time
  | .notes, r => .str r.notes

/-- The two `media` columns that `convert_entries` is invoked on
(`delete_genre` passes `genre`, `delete_media_type` passes `media_type`). -/
inductive ConvertColumn : Type
  | genre | media_type
deriving DecidableEq

/-- Read the converted column. -/
def ConvertColumn.get : ConvertColumn → MediaRow → String
  | .genre, r => r.genre
  | .media_type, r => r.media_type

/-- Write the converted column, leaving every other field unchanged. -/
def ConvertColumn.set : ConvertColumn → String → MediaRow → MediaRow
  | .genre, v, r => { r with genre := v }
  | .media_type, v, r => { r with media_type := v }

/-- The rowid SQLite assigns to `INSERT INTO media VALUES (NULL, ...)`:
one more than the largest rowid in the table (1 for an empty table). -/
def nextMediaId (db : DBState) : Nat :=
  (db.media.map (fun r => r.id)).foldr max 0 + 1

/-- MDBHandler.add_entry: `INSERT INTO media VALUES (NULL, :title, ...)`.
The `title` argument is an `Option` because the column is declared
`NOT NULL`: binding SQL NULL (`none`) raises an IntegrityError, which the
method's `except` swallows, leaving the store unchanged; any actual string
(the empty string included) is accepted and the row is appended. -/
def add_entry (db : DBState) (title : Option String)
    (description age_rating genre : String) (season disc_count : Int)
    (media_type : String) (play_time : Int) (notes : String) : DBState :=
  match title with
  | none => db
  | some t =>
    { db with media := db.media ++
        [{ id := nextMediaId db, title := t, description := description,
           age_rating := age_rating, genre := genre, season := season,
           disc_count := disc_count, media_type := media_type,
           play_time := play_time, notes := notes }] }

/-- MDBHandler.update_entry on the `media` table: `UPDATE media SET ...
WHERE id=(:rowid)`.  Every row whose id matches is replaced field by field;
if no row matches, the statement affects zero rows. -/
def update_entry (db : DBState) (rowid : Nat)
    (title description age_rating genre : String) (season disc_count : Int)
    (media_type : String) (play_time : Int) (notes : String) : DBState :=
  { db with media := db.media.map (fun r =>
      if r.id = rowid then
        { id := r.id, title := title, description := description,
          age_rating := age_rating, genre := genre, season := season,
          disc_count := disc_count, media_type := media_type,
          play_time := play_time, notes := notes }
      else r) }

/-- MDBHandler.convert_entries:
`UPDATE media SET {column}=:new_value WHERE {column}=:old_value`. -/
def convert_entries (db : DBState) (column : ConvertColumn)
    (old_value new_value : String) : DBState :=
  { db with media := db.media.map (fun r =>
      if column.get r = old_value then column.set new_value r else r) }

/-- MDBHandler.delete_genre on a `(rowid, name)` pair taken from a genres
row: first rewrites every media row whose `genre` equals the name to the
sentinel `"-DELETED GENRE-"` via `convert_entries`, then
`DELETE FROM genres WHERE rowid=:rowid`. -/
def delete_genre (db : DBState) (entry : Nat × String) : DBState :=
  let db1 := convert_entries db .genre entry.2 "-DELETED GENRE-"
  { db1 with genres := db1.genres.filter (fun g => decide (g.id ≠ entry.1)) }

/-- The two SQL statements `delete_genre` executes, as fault-injection
points for its storage layer. -/
inductive DeleteFault : Type
  | updateStmt | deleteStmt
deriving DecidableEq

/-- MDBHandler.delete_genre with a storage fault injected at one of its two
statements.  The source's `convert_entries` has its own `try/except` and
its own `connection.commit()`: a fault in the UPDATE is caught and logged
inside `convert_entries`, after which `delete_genre` proceeds and the
DELETE still runs and commits; conversely, when the DELETE faults, the
UPDATE has already been committed by `convert_entries`, and the `with
connection` block only rolls back the failed DELETE's transaction. -/
def delete_genre_run (db : DBState) (entry : Nat × String) :
    Option DeleteFault → DBState
  | none => delete_genre db entry
  | some .updateStmt =>
    { db with genres := db.genres.filter (fun g => decide (g.id ≠ entry.1)) }
  | some .deleteStmt => convert_entries db .genre entry.2 "-DELETED GENRE-"

/-- One round of the source's fetch loop over a cursor holding `l`:
`results = cursor.fetchmany(count)`, stopping when `results` is empty.
CPython's sqlite3 `fetchmany` appends rows and stops when the batch length
equals `size`, so a size of zero never triggers the stop condition and the
call returns every remaining row in one batch. -/
def fetchChunks {α : Type} (size : Nat) : List α → List (List α)
  | [] => []
  | a :: l =>
    if size = 0 then [a :: l]
    else (a :: l).take size :: fetchChunks size ((a :: l).drop size)
termination_by l => l.length
decreasing_by
  simp only [List.length_drop, List.length_cons]
  omega

/-- MDBHandler.return_all_entries on a table with rows `rows`, selecting
and ordering by the column read off by `proj`:
`SELECT {column} FROM {table} ORDER BY {column}` followed by the
`fetchmany(count)` loop.  The result is the list of fetched chunks. -/
def return_all_entries {ρ : Type} (rows : List ρ) (proj : ρ → SQLVal)
    (count : Nat) : List (List SQLVal) :=
  fetchChunks count ((rows.map proj).mergeSort SQLVal.le)

/-- MDBHandler.return_distinct_entries:
`SELECT DISTINCT {column} FROM {table} ORDER BY {column}` with the same
fetch loop; SQLite returns each distinct value once, in order. -/
def return_distinct_entries {ρ : Type} (rows : List ρ) (proj : ρ → SQLVal)
    (count : Nat) : List (List SQLVal) :=
  fetchChunks count (((rows.map proj).mergeSort SQLVal.le).dedup)

/-- SQLite `LIKE` pattern matching: `%` matches any sequence of characters,
`_` matches exactly one, and ordinary characters compare after ASCII case
folding (`Char.toLower` folds exactly the ASCII uppercase letters, as
SQLite's LIKE does for codepoints below 0x80). -/
def likeMatch (p s : List Char) : Bool :=
  match p, s with
  | [], [] => true
  | [], _ :: _ => false
  | '%' :: ps, [] => likeMatch ps []
  | '%' :: ps, c :: s' => likeMatch ps (c :: s') || likeMatch ('%' :: ps) s'
  | '_' :: _, [] => false
  | '_' :: ps, _ :: s' => likeMatch ps s'
  | _ :: _, [] => false
  | c :: ps, d :: s' => (c.toLower = d.toLower) && likeMatch ps s'
termination_by p.length + s.length
decreasing_by all_goals (simp <;> omega)

/-- Does `field LIKE '%' + query + '%'` hold, as `search` asks SQLite. -/
def likeContains (field query : String) : Bool :=
  likeMatch ('%' :: (query.data ++ ['%'])) field.data

/-- The four `media` columns the GUI's radio buttons can pass to `search`
as its optional `column` argument. -/
inductive SearchColumn : Type
  | title | description | genre | notes
deriving DecidableEq

/-- Read the searched column. -/
def SearchColumn.get : SearchColumn → MediaRow → String
  | .title, r => r.title
  | .description, r => r.description
  | .genre, r => r.genre
  | .notes, r => r.notes

/-- MDBHandler.search: with no column, `SELECT * FROM media WHERE title
LIKE (:query) OR description LIKE (:query) OR genre LIKE (:query) OR notes
LIKE (:query)` with `:query` bound to `%query%`; with a column, the same
single-column LIKE.  No ORDER BY, so rows come back in table order, and
they are fetched with the same `fetchmany(count)` loop. -/
def search (db : DBState) (query : String) (column : Option SearchColumn)
    (count : Nat) : List (List MediaRow) :=
  match column with
  | none => fetchChunks count (db.media.filter (fun r =>
      likeContains r.title query || likeContains r.description query ||
      likeContains r.genre query || likeContains r.notes query))
  | some c => fetchChunks count (db.media.filter (fun r =>
      likeContains (c.get r) query))

/-- MDBHandler.select_one_entry:
`SELECT * FROM {table} WHERE {column}=(:value)` followed by `fetchone()`,
which returns the first matching row in table order, or None. -/
def select_one_entry {ρ : Type} (rows : List ρ) (proj : ρ → SQLVal)
    (value : SQLVal) : Option ρ :=
  rows.find? (fun r => decide (proj r = value))

/-- The single-quote character, written via its codepoint. -/
def squote : Char := Char.ofNat 39

/-- Interpretation of a string that `filter_entries` splices between two
single quotes in its statement text.  A doubled quote is the SQL escape
for one quote character; a lone quote closes the literal early, leaving
the rest of the argument as stray statement text, so the statement fails
to parse and `execute` raises.  (An argument crafted so that the stray
text is itself valid SQL could instead change the query; no such argument
is used to settle any claim here.) -/
def sqlLiteralBody : List Char → Option (List Char)
  | [] => some []
  | c :: rest =>
    if c = squote then
      match rest with
      | [] => none
      | c' :: rest' =>
        if c' = squote then (sqlLiteralBody rest').map (fun l => squote :: l)
        else none
    else (sqlLiteralBody rest).map (fun l => c :: l)

/-- MDBHandler.filter_entries on a table with rows `rows` and the column
read off by `proj`: the source interpolates `value` directly into
`SELECT * FROM {table} WHERE {column}=('{value}') ORDER BY {column}`, so
the comparison value is the SQL reading of the spliced text; a malformed
statement raises, the `except` swallows it, and the generator yields
nothing. -/
def filter_entries {ρ : Type} (rows : List ρ) (proj : ρ → SQLVal)
    (value : String) (count : Nat) : List (List ρ) :=
  match sqlLiteralBody value.data with
  | none => []
  | some v =>
    fetchChunks count
      (((rows.filter (fun r => decide (proj r = SQLVal.str (String.mk v))))).mergeSort
        (fun a b => SQLVal.le (proj a) (proj b)))

/-- Declared shape of one column in a CREATE TABLE statement: its name,
whether it is declared `INTEGER PRIMARY KEY` (SQLite's auto-assigned
unique rowid alias), and whether it carries `NOT NULL`. -/
structure ColumnDef : Type where
  name : String
  integerPrimaryKey : Bool
  notNull : Bool
deriving DecidableEq

/-- The declared schema of one table. -/
structure TableSchema : Type where
  columns : List ColumnDef
deriving DecidableEq

/-- The schema catalog: which of the three tables exist, and with which
declared shape.  SQLite holds at most one table per name. -/
structure SchemaState : Type where
  media : Option TableSchema
  genres : Option TableSchema
  media_types : Option TableSchema
deriving DecidableEq

/-- The `media_types` schema from MDBHandler.create_tables:
`id INTEGER PRIMARY KEY NOT NULL, type VARCHAR`. -/
def mediaTypesSchema : TableSchema :=
  ⟨[⟨"id", true, true⟩, ⟨"type", false, false⟩]⟩

/-- The `genres` schema from MDBHandler.create_tables. -/
def genresSchema : TableSchema :=
  ⟨[⟨"id", true, false⟩, ⟨"genre", false, false⟩,
    ⟨"description", false, false⟩, ⟨"examples", false, false⟩]⟩

/-- The `media` schema from MDBHandler.create_tables (`title` is the one
non-key column declared NOT NULL). -/
def mediaSchema : TableSchema :=
  ⟨[⟨"id", true, false⟩, ⟨"title", false, true⟩,
    ⟨"description", false, false⟩, ⟨"age_rating", false, false⟩,
    ⟨"genre", false, false⟩, ⟨"season", false, false⟩,
    ⟨"disc_count", false, false⟩, ⟨"media_type", false, false⟩,
    ⟨"play_time", false, false⟩, ⟨"notes", false, false⟩]⟩

/-- `CREATE TABLE IF NOT EXISTS`: keeps whatever table already bears the
name, creates the given one otherwise, and never errors. -/
def createIfAbsent (cur : Option TableSchema) (schema : TableSchema) :
    Option TableSchema :=
  match cur with
  | some t => some t
  | none => some schema

/-- MDBHandler.create_tables: three `CREATE TABLE IF NOT EXISTS`
statements, one per table. -/
def create_tables (s : SchemaState) : SchemaState :=
  { media := createIfAbsent s.media mediaSchema,
    genres := createIfAbsent s.genres genresSchema,
    media_types := createIfAbsent s.media_types mediaTypesSchema }

/-- MDBHandler.return_all_entries when the storage layer raises at the
`k`-th `fetchmany` call (`k = 0`: already the cursor execute or the first
fetch fails).  The generator's `try/except` catches the error and the
generator simply ends; the chunks yielded before the fault have already
reached the caller. -/
def return_all_entries_faulty {ρ : Type} (rows : List ρ)
    (proj : ρ → SQLVal) (count k : Nat) : List SQLVal :=
  ((return_all_entries rows proj count).take k).flatten

/-- MDBHandler.select_one_entry when the storage layer raises during the
call: the `except` branch logs and falls off the function, returning
Python's None. -/
def select_one_entry_faulty {ρ : Type} (rows : List ρ)
    (proj : ρ → SQLVal) (value : SQLVal) (fault : Bool) : Option ρ :=
  if fault then none else select_one_entry rows proj value

/-- Is `n` an initial segment of `h` (plain character equality)? -/
def startsCL : List Char → List Char → Bool
  | [], _ => true
  | _ :: _, [] => false
  | a :: as, b :: bs => decide (a = b) && startsCL as bs

/-- Does `n` occur contiguously inside `h`? -/
def containsCL (n : List Char) : List Char → Bool
  | [] => startsCL n []
  | b :: bs => startsCL n (b :: bs) || containsCL n bs

/-- Case-insensitive substring containment — the specification's reading
of what `search` matches ("contains the query string as a case-insensitive
substring"), stated independently of the SQL the source builds. -/
def containsCI (hay needle : String) : Bool :=
  containsCL (needle.data.map Char.toLower) (hay.data.map Char.toLower)

theorem charListLe_total : ∀ a b : List Char,
    (charListLe a b || charListLe b a) = true := by
  intro a
  induction a with
  | nil => intro b; simp [charListLe]
  | cons x xs ih =>
    intro b
    cases b with
    | nil => simp [charListLe]
    | cons y ys =>
      simp only [charListLe]
      by_cases h1 : x.toNat < y.toNat
      · simp [h1]
      · by_cases h2 : y.toNat < x.toNat
        · simp [h1, h2]
        · simpa [h1, h2] using ih ys

theorem charListLe_trans : ∀ a b c : List Char,
    charListLe a b = true → charListLe b c = true → charListLe a c = true := by
  intro a
  induction a with
  | nil => intro b c _ _; rfl
  | cons x xs ih =>
    intro b c hab hbc
    cases b with
    | nil => simp [charListLe] at hab
    | cons y ys =>
      cases c with
      | nil => simp [charListLe] at hbc
      | cons z zs =>
        simp only [charListLe] at hab hbc ⊢
        by_cases h1 : x.toNat < y.toNat
        · by_cases h3 : y.toNat < z.toNat
          · rw [if_pos (by omega)]
          · rw [if_neg h3] at hbc
            by_cases h4 : z.toNat < y.toNat
            · rw [if_pos h4] at hbc
              exact absurd hbc (by simp)
            · rw [if_pos (by omega)]
        · by_cases h2 : y.toNat < x.toNat
          · rw [if_neg h1, if_pos h2] at hab
            exact absurd hab (by simp)
          · rw [if_neg h1, if_neg h2] at hab
            by_cases h3 : y.toNat < z.toNat
            · rw [if_pos (by omega)]
            · by_cases h4 : z.toNat < y.toNat
              · rw [if_neg h3, if_pos h4] at hbc
                exact absurd hbc (by simp)
              · rw [if_neg h3, if_neg h4] at hbc
                rw [if_neg (by omega), if_neg (by omega)]
                exact ih ys zs hab hbc

theorem SQLVal.le_total : ∀ a b : SQLVal, (le a b || le b a) = true := by
  intro a b
  cases a <;> cases b <;> simp [le] <;>
    first | omega | simpa using charListLe_total _ _

theorem SQLVal.le_trans : ∀ a b c : SQLVal,
    le a b = true → le b c = true → le a c = true := by
  intro a b c hab hbc
  cases a <;> cases b <;> cases c <;> simp [le] at hab hbc ⊢ <;>
    first | omega | exact charListLe_trans _ _ _ hab hbc

theorem flatten_fetchChunks {α : Type} (size : Nat) :
    ∀ l : List α, (fetchChunks size l).flatten = l
  | [] => by simp [fetchChunks]
  | a :: l => by
    rw [fetchChunks]
    split
    · simp
    · rw [List.flatten_cons, flatten_fetchChunks size ((a :: l).drop size),
        List.take_append_drop]
termination_by l => l.length
decreasing_by
  simp only [List.length_drop, List.length_cons]
  omega

theorem length_le_of_mem_fetchChunks {α : Type} (size : Nat)
    (hs : 0 < size) :
    ∀ l : List α, ∀ c ∈ fetchChunks size l, c.length ≤ size
  | [] => by simp [fetchChunks]
  | a :: l => by
    rw [fetchChunks, if_neg (Nat.pos_iff_ne_zero.mp hs)]
    intro c hc
    rcases List.mem_cons.mp hc with rfl | hc
    · exact List.length_take_le size (a :: l)
    · exact length_le_of_mem_fetchChunks size hs ((a :: l).drop size) c hc
termination_by l => l.length
decreasing_by
  simp only [List.length_drop, List.length_cons]
  omega

theorem flatten_take_append {α : Type} (L : List (List α)) (k : Nat) :
    (L.take k).flatten ++ (L.drop k).flatten = L.flatten := by
  rw [← List.flatten_append, List.take_append_drop]

theorem startsCL_iff (n : List Char) : ∀ h : List Char,
    (startsCL n h = true ↔ ∃ t, h = n ++ t) := by
  induction n with
  | nil => intro h; simp [startsCL]
  | cons a as ih =>
    intro h
    cases h with
    | nil =>
      simp only [startsCL]
      constructor
      · intro hfalse; exact absurd hfalse (by simp)
      · rintro ⟨t, ht⟩; exact absurd ht (by simp)
    | cons b bs =>
      simp only [startsCL, Bool.and_eq_true, decide_eq_true_eq, ih bs]
      constructor
      · rintro ⟨rfl, t, rfl⟩; exact ⟨t, rfl⟩
      · rintro ⟨t, ht⟩
        rw [List.cons_append] at ht
        obtain ⟨rfl, rfl⟩ := List.cons.inj ht
        exact ⟨rfl, t, rfl⟩

theorem containsCL_iff (n : List Char) : ∀ h : List Char,
    (containsCL n h = true ↔ ∃ u v, h = u ++ n ++ v) := by
  intro h
  induction h with
  | nil =>
    simp only [containsCL, startsCL_iff]
    constructor
    · rintro ⟨t, ht⟩
      rcases List.append_eq_nil.mp ht.symm with ⟨rfl, rfl⟩
      exact ⟨[], [], rfl⟩
    · rintro ⟨u, v, huv⟩
      rcases List.append_eq_nil.mp huv.symm with ⟨h1, rfl⟩
      rcases List.append_eq_nil.mp h1 with ⟨rfl, rfl⟩
      exact ⟨[], rfl⟩
  | cons b bs ih =>
    simp only [containsCL, Bool.or_eq_true, startsCL_iff, ih]
    constructor
    · rintro (⟨t, ht⟩ | ⟨u, v, rfl⟩)
      · exact ⟨[], t, by simpa using ht⟩
      · exact ⟨b :: u, v, rfl⟩
    · rintro ⟨u, v, huv⟩
      cases u with
      | nil => exact Or.inl ⟨v, by simpa using huv⟩
      | cons x u' =>
        rw [List.cons_append, List.cons_append] at huv
        obtain ⟨rfl, h2⟩ := List.cons.inj huv
        exact Or.inr ⟨u', v, by simpa using h2⟩

theorem likeMatch_pct_nil_eq (p : List Char) :
    likeMatch ('%' :: p) [] = likeMatch p [] := by
  rw [likeMatch]

theorem likeMatch_pct_cons_eq (p : List Char) (c : Char) (s : List Char) :
    likeMatch ('%' :: p) (c :: s) =
      (likeMatch p (c :: s) || likeMatch ('%' :: p) s) := by
  rw [likeMatch]

theorem likeMatch_cons_nil {c : Char} (p : List Char) (hc : c ≠ '%') :
    likeMatch (c :: p) [] = false := by
  rw [likeMatch.eq_def]
  split <;> simp_all

theorem likeMatch_cons_cons {c : Char} (p : List Char) (d : Char)
    (s : List Char) (hc1 : c ≠ '%') (hc2 : c ≠ '_') :
    likeMatch (c :: p) (d :: s) =
      (decide (c.toLower = d.toLower) && likeMatch p s) := by
  rw [likeMatch.eq_def]
  split <;> simp_all

theorem likeMatch_pct_any : ∀ s : List Char, likeMatch ['%'] s = true
  | [] => by simp [likeMatch]
  | c :: s' => by
    rw [likeMatch_pct_cons_eq, likeMatch_pct_any s']
    simp
termination_by s => s.length

theorem likeMatch_pct_iff (p : List Char) : ∀ s : List Char,
    (likeMatch ('%' :: p) s = true ↔
      ∃ u v, s = u ++ v ∧ likeMatch p v = true)
  | [] => by
    rw [likeMatch_pct_nil_eq]
    constructor
    · intro h
      exact ⟨[], [], rfl, h⟩
    · rintro ⟨u, v, huv, h⟩
      rcases List.append_eq_nil.mp huv.symm with ⟨rfl, rfl⟩
      exact h
  | c :: s' => by
    rw [likeMatch_pct_cons_eq]
    simp only [Bool.or_eq_true]
    rw [likeMatch_pct_iff p s']
    constructor
    · rintro (h | ⟨u, v, rfl, h⟩)
      · exact ⟨[], c :: s', rfl, h⟩
      · exact ⟨c :: u, v, rfl, h⟩
    · rintro ⟨u, v, huv, h⟩
      cases u with
      | nil =>
        left
        simp only [List.nil_append] at huv
        rw [huv]
        exact h
      | cons x u' =>
        right
        rw [List.cons_append] at huv
        obtain ⟨h1, h2⟩ := List.cons.inj huv
        exact ⟨u', v, h2, h⟩
termination_by s => s.length

theorem likeMatch_plain_pct :
    ∀ q : List Char, (∀ c ∈ q, c ≠ '%' ∧ c ≠ '_') →
      ∀ s : List Char, (likeMatch (q ++ ['%']) s = true ↔
        ∃ u v, s = u ++ v ∧ u.map Char.toLower = q.map Char.toLower)
  | [], _, s => by
    simp only [List.nil_append, List.map_nil, List.map_eq_nil_iff]
    constructor
    · intro _
      exact ⟨[], s, rfl, rfl⟩
    · intro _
      exact likeMatch_pct_any s
  | q0 :: q', hq, s => by
    have hq0 := hq q0 (List.mem_cons_self q0 q')
    have hq' : ∀ c ∈ q', c ≠ '%' ∧ c ≠ '_' :=
      fun c hc => hq c (List.mem_cons_of_mem q0 hc)
    cases s with
    | nil =>
      rw [List.cons_append, likeMatch_cons_nil _ hq0.1]
      constructor
      · intro h
        exact absurd h (by simp)
      · rintro ⟨u, v, huv, hmap⟩
        rcases List.append_eq_nil.mp huv.symm with ⟨rfl, rfl⟩
        simp at hmap
    | cons d s' =>
      rw [List.cons_append, likeMatch_cons_cons _ d s' hq0.1 hq0.2]
      simp only [Bool.and_eq_true, decide_eq_true_eq]
      rw [likeMatch_plain_pct q' hq' s']
      simp only [List.map_cons]
      constructor
      · rintro ⟨heq, u, v, rfl, hmap⟩
        exact ⟨d :: u, v, rfl, by simp [hmap, heq.symm]⟩
      · rintro ⟨u, v, huv, hmap⟩
        cases u with
        | nil => simp at hmap
        | cons x u' =>
          rw [List.cons_append] at huv
          obtain ⟨hdx, h2⟩ := List.cons.inj huv
          subst hdx
          simp only [List.map_cons] at hmap
          obtain ⟨h3, h4⟩ := List.cons.inj hmap
          exact ⟨h3.symm, u', v, h2, h4⟩

theorem likeContains_eq_containsCI (field q : String)
    (hq : ∀ c ∈ q.data, c ≠ '%' ∧ c ≠ '_') :
    likeContains field q = containsCI field q := by
  have key : likeContains field q = true ↔ containsCI field q = true := by
    simp only [likeContains, containsCI]
    rw [likeMatch_pct_iff, containsCL_iff]
    constructor
    · rintro ⟨u, v, huv, hv⟩
      rw [likeMatch_plain_pct q.data hq v] at hv
      obtain ⟨u2, v2, rfl, hmap⟩ := hv
      exact ⟨u.map Char.toLower, v2.map Char.toLower, by
        rw [huv]
        simp [hmap, List.append_assoc]⟩
    · rintro ⟨a, b, hab⟩
      rw [List.append_assoc] at hab
      obtain ⟨l₁, l₂, hfd, h1, h2⟩ := List.map_eq_append_iff.mp hab
      obtain ⟨l₃, l₄, hl₂, h3, h4⟩ := List.map_eq_append_iff.mp h2
      refine ⟨l₁, l₂, hfd, ?_⟩
      rw [likeMatch_plain_pct q.data hq l₂]
      exact ⟨l₃, l₄, hl₂, h3⟩
  cases h1 : likeContains field q <;> cases h2 : containsCI field q <;>
    simp_all

/-- C10: `add_entry` performs no validation of its inputs: from every store
state, inserting with an empty-string title succeeds — the media table's
NOT NULL constraint on `title` rejects only NULL, never the empty string —
and appends a row whose title is the empty string, with every other field
exactly as supplied and the other tables untouched. -/
theorem add_entry_empty_title_inserts (db : DBState)
    (description age_rating genre : String) (season disc_count : Int)
    (media_type : String) (play_time : Int) (notes : String) :
    add_entry db (some "") description age_rating genre season disc_count
        media_type play_time notes =
      { db with media := db.media ++
          [{ id := nextMediaId db, title := "", description := description,
             age_rating := age_rating, genre := genre, season := season,
             disc_count := disc_count, media_type := media_type,
             play_time := play_time, notes := notes }] } := rfl

/-- C6: `update_entry` with an id held by no media row is a silent no-op:
the UPDATE affects zero rows, nothing raises, and the store is exactly the
one before the call. -/
theorem update_entry_missing_id_noop (db : DBState) (rowid : Nat)
    (title description age_rating genre : String) (season disc_count : Int)
    (media_type : String) (play_time : Int) (notes : String)
    (h : ∀ r ∈ db.media, r.id ≠ rowid) :
    update_entry db rowid title description age_rating genre season
        disc_count media_type play_time notes = db := by
  simp only [update_entry]
  have hmap : db.media.map (fun r =>
      if r.id = rowid then
        { id := r.id, title := title, description := description,
          age_rating := age_rating, genre := genre, season := season,
          disc_count := disc_count, media_type := media_type,
          play_time := play_time, notes := notes }
      else r) = db.media.map id :=
    List.map_congr_left (fun r hr => if_neg (h r hr))
  rw [hmap, List.map_id]

/-- Concrete store used to witness C6. -/
def dbC6 : DBState :=
  ⟨[{ id := 1, title := "Dune", description := "", age_rating := "",
      genre := "", season := 0, disc_count := 1, media_type := "",
      play_time := 0, notes := "" }], [], []⟩

/-- C6 witness: the no-op theorem applied to a store whose only row has
id 1, updating the absent id 2. -/
theorem update_entry_missing_id_noop_witness :
    (∀ r ∈ dbC6.media, r.id ≠ 2) ∧
    update_entry dbC6 2 "t" "d" "a" "g" 0 1 "m" 0 "n" = dbC6 :=
  ⟨by decide,
    update_entry_missing_id_noop dbC6 2 "t" "d" "a" "g" 0 1 "m" 0 "n"
      (by decide)⟩

/-- C4: when no existing media row already carries the title, `add_entry`
followed by `select_one_entry` on the title returns exactly the inserted
row: the store-assigned id together with every supplied field. -/
theorem add_then_select_roundtrip (db : DBState)
    (t description age_rating genre : String) (season disc_count : Int)
    (media_type : String) (play_time : Int) (notes : String)
    (h : ∀ r ∈ db.media, r.title ≠ t) :
    select_one_entry
        (add_entry db (some t) description age_rating genre season
          disc_count media_type play_time notes).media
        (MediaColumn.proj .title) (SQLVal.str t) =
      some { id := nextMediaId db, title := t, description := description,
             age_rating := age_rating, genre := genre, season := season,
             disc_count := disc_count, media_type := media_type,
             play_time := play_time, notes := notes } := by
  simp only [add_entry, select_one_entry]
  rw [List.find?_append]
  have h1 : db.media.find?
      (fun r => decide (MediaColumn.proj .title r = SQLVal.str t)) = none := by
    rw [List.find?_eq_none]
    intro r hr
    simp only [MediaColumn.proj, decide_eq_true_eq, SQLVal.str.injEq]
    exact h r hr
  rw [h1]
  simp [MediaColumn.proj]

/-- C4 witness: round trip through an empty store. -/
theorem add_then_select_roundtrip_witness :
    (∀ r ∈ (⟨[], [], []⟩ : DBState).media, r.title ≠ "Dune") ∧
    select_one_entry
        (add_entry ⟨[], [], []⟩ (some "Dune") "desc" "PG" "Sci-Fi" 1 2
          "Blu-ray" 155 "note").media
        (MediaColumn.proj .title) (SQLVal.str "Dune") =
      some ⟨1, "Dune", "desc", "PG", "Sci-Fi", 1, 2, "Blu-ray", 155, "note"⟩ :=
  ⟨by decide,
    add_then_select_roundtrip ⟨[], [], []⟩ "Dune" "desc" "PG" "Sci-Fi" 1 2
      "Blu-ray" 155 "note" (by decide)⟩

/-- C1 (amended): for every store and every genre row (id, name) present in
the genres table whose name is not itself the sentinel "-DELETED GENRE-",
`delete_genre` rewrites exactly the media rows whose genre equalled the
name to the sentinel (all other fields unchanged), afterwards no media row
has the name as its genre, the genres table no longer holds a row with
that id, and the media_types table is untouched. -/
theorem delete_genre_rewrites_and_removes (db : DBState) (gid : Nat)
    (name : String)
    (_hpresent : ∃ g ∈ db.genres, g.id = gid ∧ g.genre = name)
    (hname : name ≠ "-DELETED GENRE-") :
    ((delete_genre db (gid, name)).media =
      db.media.map (fun r =>
        if r.genre = name then { r with genre := "-DELETED GENRE-" }
        else r)) ∧
    (∀ r ∈ (delete_genre db (gid, name)).media, r.genre ≠ name) ∧
    (∀ g ∈ (delete_genre db (gid, name)).genres, g.id ≠ gid) ∧
    ((delete_genre db (gid, name)).media_types = db.media_types) := by
  refine ⟨rfl, ?_, ?_, rfl⟩
  · intro r hr
    obtain ⟨r0, _, rfl⟩ := List.mem_map.mp hr
    by_cases hg : ConvertColumn.get .genre r0 = name
    · rw [if_pos hg]
      simp only [ConvertColumn.set]
      exact fun hcontra => hname hcontra.symm
    · rw [if_neg hg]
      exact hg
  · intro g hg
    have := (List.mem_filter.mp hg).2
    exact of_decide_eq_true this

/-- Concrete store used to witness C1: one "Action" row, one other row. -/
def dbC1w : DBState :=
  ⟨[{ id := 1, title := "Dune", description := "", age_rating := "",
      genre := "Action", season := 0, disc_count := 1, media_type := "",
      play_time := 0, notes := "" },
    { id := 2, title := "Up", description := "", age_rating := "",
      genre := "Family", season := 0, disc_count := 1, media_type := "",
      play_time := 0, notes := "" }],
   [⟨1, "Action", "", ""⟩, ⟨2, "Family", "", ""⟩], []⟩

/-- C1 witness: deleting the genre row (1, "Action") from `dbC1w`. -/
theorem delete_genre_rewrites_and_removes_witness :
    (∃ g ∈ dbC1w.genres, g.id = 1 ∧ g.genre = "Action") ∧
    ("Action" : String) ≠ "-DELETED GENRE-" ∧
    (((delete_genre dbC1w (1, "Action")).media =
      dbC1w.media.map (fun r =>
        if r.genre = "Action" then { r with genre := "-DELETED GENRE-" }
        else r)) ∧
    (∀ r ∈ (delete_genre dbC1w (1, "Action")).media, r.genre ≠ "Action") ∧
    (∀ g ∈ (delete_genre dbC1w (1, "Action")).genres, g.id ≠ 1) ∧
    ((delete_genre dbC1w (1, "Action")).media_types = dbC1w.media_types)) :=
  ⟨by decide, by decide,
    delete_genre_rewrites_and_removes dbC1w 1 "Action" (by decide)
      (by decide)⟩

/-- Concrete store refuting C1 as stated: the genres table holds a row
literally named "-DELETED GENRE-", and a media row carries that genre. -/
def dbC1x : DBState :=
  ⟨[{ id := 1, title := "Old", description := "", age_rating := "",
      genre := "-DELETED GENRE-", season := 0, disc_count := 1,
      media_type := "", play_time := 0, notes := "" }],
   [⟨5, "-DELETED GENRE-", "", ""⟩], []⟩

/-- C1 counterexample: deleting the genre row (5, "-DELETED GENRE-") —
present in the genres table of `dbC1x` — leaves a media row whose genre
still equals that row's name, contradicting the claim that no such row
remains for every genre row. -/
theorem delete_genre_sentinel_counterexample :
    (∃ g ∈ dbC1x.genres, g.id = 5 ∧ g.genre = "-DELETED GENRE-") ∧
    ∃ r ∈ (delete_genre dbC1x (5, "-DELETED GENRE-")).media,
      r.genre = "-DELETED GENRE-" := by
  decide

/-- Concrete store for C2: one media row referencing the "Action" genre. -/
def dbC2 : DBState :=
  ⟨[{ id := 1, title := "Dune", description := "", age_rating := "",
      genre := "Action", season := 0, disc_count := 1, media_type := "",
      play_time := 0, notes := "" }],
   [⟨1, "Action", "", ""⟩], []⟩

/-- C2: `delete_genre` is not atomic.  A storage fault at its UPDATE is
swallowed inside `convert_entries`, after which the DELETE still runs: the
genre row is gone while the media row still references "Action" — a
dangling reference the claim says no observer can see — and the store has
changed although the operation failed.  A fault at the DELETE likewise
leaves the store changed (the UPDATE was already committed). -/
theorem delete_genre_not_atomic :
    (delete_genre_run dbC2 (1, "Action") (some .updateStmt) ≠ dbC2) ∧
    (∃ r ∈ (delete_genre_run dbC2 (1, "Action") (some .updateStmt)).media,
      r.genre = "Action" ∧
      ∀ g ∈ (delete_genre_run dbC2 (1, "Action") (some .updateStmt)).genres,
        g.genre ≠ "Action") ∧
    (delete_genre_run dbC2 (1, "Action") (some .deleteStmt) ≠ dbC2) := by
  decide

/-- C7 (amended): `create_tables` is idempotent from every catalog state
and never errors; after a call all three tables exist; a table that was
absent is created with the handler's declared schema, whose `id` column is
INTEGER PRIMARY KEY on each table and whose media `title` column is NOT
NULL.  (A table that already existed is kept as-is: CREATE TABLE IF NOT
EXISTS does not reshape it.) -/
theorem create_tables_idempotent (s : SchemaState) :
    (create_tables (create_tables s) = create_tables s) ∧
    ((create_tables s).media ≠ none ∧ (create_tables s).genres ≠ none ∧
      (create_tables s).media_types ≠ none) ∧
    (s.media = none → (create_tables s).media = some mediaSchema) ∧
    (s.genres = none → (create_tables s).genres = some genresSchema) ∧
    (s.media_types = none →
      (create_tables s).media_types = some mediaTypesSchema) ∧
    (∃ c ∈ mediaSchema.columns, c.name = "id" ∧ c.integerPrimaryKey = true) ∧
    (∃ c ∈ mediaSchema.columns, c.name = "title" ∧ c.notNull = true) ∧
    (∃ c ∈ genresSchema.columns, c.name = "id" ∧ c.integerPrimaryKey = true) ∧
    (∃ c ∈ mediaTypesSchema.columns,
      c.name = "id" ∧ c.integerPrimaryKey = true) := by
  obtain ⟨m, g, t⟩ := s
  refine ⟨?_, ⟨?_, ?_, ?_⟩, ?_, ?_, ?_, by decide, by decide, by decide,
    by decide⟩
  · cases m <;> cases g <;> cases t <;> rfl
  · cases m <;> simp [create_tables, createIfAbsent]
  · cases g <;> simp [create_tables, createIfAbsent]
  · cases t <;> simp [create_tables, createIfAbsent]
  · intro hm
    simp only at hm
    rw [hm]
    rfl
  · intro hg
    simp only at hg
    rw [hg]
    rfl
  · intro ht
    simp only at ht
    rw [ht]
    rfl

/-- C7 witness: the theorem applied to the empty catalog (first startup),
with the absent-table hypotheses discharged. -/
theorem create_tables_idempotent_witness :
    (create_tables (create_tables ⟨none, none, none⟩) =
      create_tables ⟨none, none, none⟩) ∧
    ((create_tables ⟨none, none, none⟩).media ≠ none ∧
      (create_tables ⟨none, none, none⟩).genres ≠ none ∧
      (create_tables ⟨none, none, none⟩).media_types ≠ none) ∧
    ((create_tables ⟨none, none, none⟩).media = some mediaSchema) ∧
    ((create_tables ⟨none, none, none⟩).genres = some genresSchema) ∧
    ((create_tables ⟨none, none, none⟩).media_types =
      some mediaTypesSchema) ∧
    (∃ c ∈ mediaSchema.columns, c.name = "id" ∧ c.integerPrimaryKey = true) ∧
    (∃ c ∈ mediaSchema.columns, c.name = "title" ∧ c.notNull = true) ∧
    (∃ c ∈ genresSchema.columns, c.name = "id" ∧ c.integerPrimaryKey = true) ∧
    (∃ c ∈ mediaTypesSchema.columns,
      c.name = "id" ∧ c.integerPrimaryKey = true) := by
  have h := create_tables_idempotent ⟨none, none, none⟩
  exact ⟨h.1, h.2.1, h.2.2.1 rfl, h.2.2.2.1 rfl, h.2.2.2.2.1 rfl,
    h.2.2.2.2.2.1, h.2.2.2.2.2.2.1, h.2.2.2.2.2.2.2.1, h.2.2.2.2.2.2.2.2⟩

/-- A table named `media` that predates the handler, with a nullable
`title` and no INTEGER PRIMARY KEY: `CREATE TABLE IF NOT EXISTS` keeps it. -/
def preexistingMedia : TableSchema := ⟨[⟨"title", false, false⟩]⟩

/-- Catalog state refuting C7 as stated. -/
def schemaC7x : SchemaState := ⟨some preexistingMedia, none, none⟩

/-- C7 counterexample: from a state where a divergent `media` table already
exists, `create_tables` keeps it unchanged, so the resulting media table
has neither an `id` INTEGER PRIMARY KEY column nor a NOT NULL `title` —
against the claim that from any state the call yields tables with those
properties. -/
theorem create_tables_preexisting_counterexample :
    (create_tables schemaC7x).media = some preexistingMedia ∧
    (∀ c ∈ preexistingMedia.columns,
      ¬(c.name = "id" ∧ c.integerPrimaryKey = true)) ∧
    (∀ c ∈ preexistingMedia.columns,
      ¬(c.name = "title" ∧ c.notNull = true)) := by
  decide

/-- C9 (amended): a storage failure never surfaces as an exception: the
faulted `select_one_entry` returns None; a faulted streaming read simply
ends, yielding exactly the chunks fetched before the fault — the empty
sequence when the failure precedes the first fetch, and in general a
leading segment of the fault-free result. -/
theorem storage_failure_swallowed {ρ : Type} (rows : List ρ)
    (proj : ρ → SQLVal) (value : SQLVal) (count k : Nat) :
    (select_one_entry_faulty rows proj value true = none) ∧
    (k = 0 → return_all_entries_faulty rows proj count k = []) ∧
    (return_all_entries_faulty rows proj count k <+:
      (return_all_entries rows proj count).flatten) := by
  refine ⟨rfl, ?_, ?_⟩
  · rintro rfl
    simp [return_all_entries_faulty]
  · exact ⟨((return_all_entries rows proj count).drop k).flatten,
      flatten_take_append _ _⟩

/-- C9 witness: the policy theorem applied to the empty media table with a
fault before the first fetch. -/
theorem storage_failure_swallowed_witness :
    (select_one_entry_faulty ([] : List MediaRow) (MediaColumn.proj .title)
      (SQLVal.str "x") true = none) ∧
    (return_all_entries_faulty ([] : List MediaRow) (MediaColumn.proj .title)
      1000 0 = []) ∧
    (return_all_entries_faulty ([] : List MediaRow) (MediaColumn.proj .title)
        1000 0 <+:
      (return_all_entries ([] : List MediaRow) (MediaColumn.proj .title)
        1000).flatten) := by
  have h := storage_failure_swallowed ([] : List MediaRow)
    (MediaColumn.proj .title) (SQLVal.str "x") 1000 0
  exact ⟨h.1, h.2.1 rfl, h.2.2⟩

/-- A one-row media table used in the C9 counterexample. -/
def rowC9 : MediaRow :=
  { id := 1, title := "A", description := "", age_rating := "", genre := "",
    season := 0, disc_count := 1, media_type := "", play_time := 0,
    notes := "" }

/-- C9 counterexample: with page size 1, a storage failure at the second
fetch leaves the call's outcome a non-empty sequence (the first chunk was
already yielded), against the claim that a failure during the operation
yields an empty-sequence outcome. -/
theorem storage_failure_midstream_counterexample :
    return_all_entries_faulty [rowC9] (MediaColumn.proj .title) 1 1 ≠ [] := by
  have h : return_all_entries_faulty [rowC9] (MediaColumn.proj .title) 1 1 =
      [SQLVal.str "A"] := by
    simp only [return_all_entries_faulty, return_all_entries, rowC9,
      List.map_cons, List.map_nil, MediaColumn.proj,
      List.mergeSort_singleton]
    simp [fetchChunks]
  rw [h]
  simp

/-- C5 (amended): for every table, column and positive page size, the
paginated reads fetch at most `count` rows per internal fetch;
`return_all_entries` yields, over a full iteration, exactly the column's
values (one per row, as a permutation) in ascending SQLite order, and
`return_distinct_entries` yields each distinct value exactly once, also
ascending. -/
theorem chunked_streaming_spec {ρ : Type} (rows : List ρ)
    (proj : ρ → SQLVal) (count : Nat) (hc : 0 < count) :
    (∀ chunk ∈ return_all_entries rows proj count, chunk.length ≤ count) ∧
    ((return_all_entries rows proj count).flatten.Perm (rows.map proj)) ∧
    ((return_all_entries rows proj count).flatten.Pairwise
      (fun a b => SQLVal.le a b = true)) ∧
    (∀ chunk ∈ return_distinct_entries rows proj count,
      chunk.length ≤ count) ∧
    ((return_distinct_entries rows proj count).flatten.Nodup) ∧
    (∀ v, v ∈ (return_distinct_entries rows proj count).flatten ↔
      v ∈ rows.map proj) ∧
    ((return_distinct_entries rows proj count).flatten.Pairwise
      (fun a b => SQLVal.le a b = true)) := by
  have hsorted :=
    List.sorted_mergeSort SQLVal.le_trans SQLVal.le_total (rows.map proj)
  refine ⟨?_, ?_, ?_, ?_, ?_, ?_, ?_⟩
  · exact length_le_of_mem_fetchChunks count hc _
  · simp only [return_all_entries]
    rw [flatten_fetchChunks]
    exact List.mergeSort_perm _ _
  · simp only [return_all_entries]
    rw [flatten_fetchChunks]
    exact hsorted
  · exact length_le_of_mem_fetchChunks count hc _
  · simp only [return_distinct_entries]
    rw [flatten_fetchChunks]
    exact List.nodup_dedup _
  · intro v
    simp only [return_distinct_entries]
    rw [flatten_fetchChunks, List.mem_dedup, List.mem_mergeSort]
  · simp only [return_distinct_entries]
    rw [flatten_fetchChunks]
    exact List.Pairwise.sublist (List.dedup_sublist _) hsorted

/-- Two-row media table used to witness C5. -/
def rowsC5 : List MediaRow :=
  [{ id := 1, title := "Up", description := "", age_rating := "",
     genre := "", season := 0, disc_count := 1, media_type := "",
     play_time := 0, notes := "" },
   { id := 2, title := "Dune", description := "", age_rating := "",
     genre := "", season := 0, disc_count := 1, media_type := "",
     play_time := 0, notes := "" }]

/-- C5 witness: the chunking theorem applied to a two-row table with page
size 1 and the title column. -/
theorem chunked_streaming_spec_witness :
    0 < 1 ∧
    ((∀ chunk ∈ return_all_entries rowsC5 (MediaColumn.proj .title) 1,
      chunk.length ≤ 1) ∧
    ((return_all_entries rowsC5 (MediaColumn.proj .title) 1).flatten.Perm
      (rowsC5.map (MediaColumn.proj .title))) ∧
    ((return_all_entries rowsC5 (MediaColumn.proj .title) 1).flatten.Pairwise
      (fun a b => SQLVal.le a b = true)) ∧
    (∀ chunk ∈ return_distinct_entries rowsC5 (MediaColumn.proj .title) 1,
      chunk.length ≤ 1) ∧
    ((return_distinct_entries rowsC5
      (MediaColumn.proj .title) 1).flatten.Nodup) ∧
    (∀ v, v ∈ (return_distinct_entries rowsC5
        (MediaColumn.proj .title) 1).flatten ↔
      v ∈ rowsC5.map (MediaColumn.proj .title)) ∧
    ((return_distinct_entries rowsC5
        (MediaColumn.proj .title) 1).flatten.Pairwise
      (fun a b => SQLVal.le a b = true))) :=
  ⟨by decide,
    chunked_streaming_spec rowsC5 (MediaColumn.proj .title) 1 (by decide)⟩

/-- One-row media table used in the C5 counterexample. -/
def rowC5x : MediaRow :=
  { id := 1, title := "A", description := "", age_rating := "", genre := "",
    season := 0, disc_count := 1, media_type := "", play_time := 0,
    notes := "" }

/-- C5 counterexample: with page size 0, CPython's `fetchmany` never hits
its stop condition and returns every remaining row in one batch, so an
internal fetch returns more than `page_size` rows, against the claim for
every page size. -/
theorem page_size_zero_counterexample :
    ∃ chunk ∈ return_all_entries [rowC5x] (MediaColumn.proj .title) 0,
      ¬chunk.length ≤ 0 := by
  have h : return_all_entries [rowC5x] (MediaColumn.proj .title) 0 =
      [[SQLVal.str "A"]] := by
    simp only [return_all_entries, rowC5x, List.map_cons, List.map_nil,
      MediaColumn.proj, List.mergeSort_singleton]
    simp [fetchChunks]
  rw [h]
  simp

/-- C3 (amended): when the query contains neither LIKE wildcard (`%`, `_`),
`search` with no column returns exactly the media rows in which at least
one of title, description, genre, notes contains the query as a
case-insensitive substring. -/
theorem search_substring_all_columns (db : DBState) (q : String)
    (count : Nat) (hq : ∀ c ∈ q.data, c ≠ '%' ∧ c ≠ '_') :
    (search db q none count).flatten =
      db.media.filter (fun r =>
        containsCI r.title q || containsCI r.description q ||
        containsCI r.genre q || containsCI r.notes q) := by
  simp only [search]
  rw [flatten_fetchChunks]
  exact List.filter_congr (fun r _ => by
    rw [likeContains_eq_containsCI r.title q hq,
      likeContains_eq_containsCI r.description q hq,
      likeContains_eq_containsCI r.genre q hq,
      likeContains_eq_containsCI r.notes q hq])

/-- Store used to witness C3: one matching row (case differs), one not. -/
def dbC3w : DBState :=
  ⟨[{ id := 1, title := "Marvel Heroes", description := "", age_rating := "",
      genre := "", season := 0, disc_count := 1, media_type := "",
      play_time := 0, notes := "" },
    { id := 2, title := "Dune", description := "", age_rating := "",
      genre := "", season := 0, disc_count := 1, media_type := "",
      play_time := 0, notes := "" }], [], []⟩

/-- C3 witness: the search theorem applied to `dbC3w` with the wildcard-free
query "marvel". -/
theorem search_substring_all_columns_witness :
    (∀ c ∈ ("marvel" : String).data, c ≠ '%' ∧ c ≠ '_') ∧
    (search dbC3w "marvel" none 1000).flatten =
      dbC3w.media.filter (fun r =>
        containsCI r.title "marvel" || containsCI r.description "marvel" ||
        containsCI r.genre "marvel" || containsCI r.notes "marvel") :=
  ⟨by decide, search_substring_all_columns dbC3w "marvel" 1000 (by decide)⟩

/-- One-row store refuting C3 as stated. -/
def rowC3x : MediaRow :=
  { id := 1, title := "abc", description := "", age_rating := "",
    genre := "", season := 0, disc_count := 1, media_type := "",
    play_time := 0, notes := "" }

/-- The store holding only `rowC3x`. -/
def dbC3x : DBState := ⟨[rowC3x], [], []⟩

/-- C3 counterexample: for the query "_" the underscore acts as a LIKE
wildcard, so `search` returns the row titled "abc" although none of its
four searched fields contains "_" as a (case-insensitive) substring —
against the claim for every query string. -/
theorem search_wildcard_counterexample :
    (rowC3x ∈ (search dbC3x "_" none 1000).flatten) ∧
    containsCI rowC3x.title "_" = false ∧
    containsCI rowC3x.description "_" = false ∧
    containsCI rowC3x.genre "_" = false ∧
    containsCI rowC3x.notes "_" = false := by
  refine ⟨?_, by decide, by decide, by decide, by decide⟩
  have e1 : ("_" : String).data = ['_'] := rfl
  have e2 : ("abc" : String).data = ['a', 'b', 'c'] := rfl
  have hlike : likeContains rowC3x.title "_" = true := by
    show likeMatch ('%' :: (("_" : String).data ++ ['%']))
      ("abc" : String).data = true
    rw [e1, e2]
    simp [likeMatch]
  simp only [search]
  rw [flatten_fetchChunks]
  simp only [dbC3x, List.mem_filter]
  refine ⟨List.mem_cons_self _ _, ?_⟩
  rw [hlike]
  simp

/-- One-row media table for C8: its title contains a single quote. -/
def rowC8 : MediaRow :=
  { id := 1, title := String.mk ['x', squote, 'y'], description := "",
    age_rating := "", genre := "", season := 0, disc_count := 1,
    media_type := "", play_time := 0, notes := "" }

/-- The `value` argument for the C8 failing input: the four characters
x, quote, quote, y. -/
def valC8 : String := String.mk ['x', squote, squote, 'y']

/-- C8: `filter_entries` interpolates `value` into the statement text
between single quotes instead of binding it, so SQL unescaping applies: at
`value = valC8` (x followed by two quotes and y) the built statement
compares the column against the three-character string x-quote-y, and the
call returns a row whose title is NOT equal to `value` — against the claim
that exactly the rows whose column equals the value are returned. -/
theorem filter_entries_quote_bug :
    ((filter_entries [rowC8] (MediaColumn.proj .title) valC8 1000).flatten =
      [rowC8]) ∧
    MediaColumn.proj .title rowC8 ≠ SQLVal.str valC8 := by
  constructor
  · have h : sqlLiteralBody valC8.data = some ['x', squote, 'y'] := by
      decide
    simp only [filter_entries, h]
    rw [flatten_fetchChunks]
    have h3 : ([rowC8].filter (fun r =>
        decide (MediaColumn.proj .title r =
          SQLVal.str (String.mk ['x', squote, 'y'])))) = [rowC8] := by
      decide
    rw [h3, List.mergeSort_singleton]
  · decide

end MediaDB
